import Mathlib

/-!
Verification of the ExpenseTrackerBot pipeline (src/app.py and src/app_imap.py).

The development shallowly embeds the pipeline's pure decision logic:
Python strings become lists of characters, JSON values produced by
json.loads become an inductive type, and the effectful collaborators
(the language-model call, the spreadsheet client, OCR, the IMAP server)
become explicit parameters describing their outcome. Loops over
attachments, MIME parts and email batches become structural recursion
or folds over lists.
-/

set_option autoImplicit false

namespace ExpenseTrackerBot

/-! ## Python strings -/

/-- A Python string, modelled as its list of characters. -/
abbrev PyStr := List Char

/-- Coerce a Lean string literal to the Python-string model. -/
def pystr (s : String) : PyStr := s.data

/-- Characters removed by Python str.strip with no arguments
(the common ASCII whitespace; exotic Unicode whitespace does not occur
in the texts this pipeline handles). -/
def isSpaceChar (c : Char) : Bool :=
  c = ' ' || c = '\t' || c = '\n' || c = '\r'

/-- Python str.strip: drop leading and trailing whitespace. -/
def pyStrip (s : PyStr) : PyStr :=
  ((s.dropWhile isSpaceChar).reverse.dropWhile isSpaceChar).reverse

/-! ## JSON values as returned by json.loads

json.loads maps JSON null to Python None, booleans to bool, numbers to
int or float (collapsed here into one rational-valued constructor: the
claims never depend on the int/float distinction, only on
isinstance(x, (int, float)), which both satisfy), strings to str,
arrays to list and objects to dict (field list; a Python dict has no
duplicate keys). -/

inductive JValue where
  | jnull
  | jbool (b : Bool)
  | jnum (q : ℚ)
  | jstr (s : PyStr)
  | jarr (elems : List JValue)
  | jobj (fields : List (PyStr × JValue))

/-- Python truthiness of a json.loads value, as used by
`if result_dict.get("vendor")`. -/
def pyTruthy : JValue → Bool
  | .jnull => false
  | .jbool b => b
  | .jnum q => decide (q ≠ 0)
  | .jstr s => !s.isEmpty
  | .jarr elems => !elems.isEmpty
  | .jobj fields => !fields.isEmpty

/-- dict.get(key) on a json.loads object: the value at the key, or
Python None (jnull) when the key is absent. json.loads never produces
duplicate keys, so first-match lookup is exact. -/
def objGet : List (PyStr × JValue) → PyStr → JValue
  | [], _ => .jnull
  | (k, v) :: rest, key => if key = k then v else objGet rest key

/-- dict.get(key, default): the value at the key (even when that value
is None), or the default when the key is absent. -/
def objGetD : List (PyStr × JValue) → PyStr → JValue → JValue
  | [], _, d => d
  | (k, v) :: rest, key, d => if key = k then v else objGetD rest key d

/-- Python test `x is not None` on a json.loads value. -/
def isNotNone : JValue → Bool
  | .jnull => false
  | _ => true

/-- Python test isinstance(x, (int, float)) on a json.loads value.
JSON numbers qualify; so do JSON booleans, because Python bool is a
subclass of int. Nothing else does. -/
def isNumericPy : JValue → Bool
  | .jnum _ => true
  | .jbool _ => true
  | _ => false

/-- A value of JSON numeric type, in the sense of the JSON data model
(the sense a specification reader would give the words: booleans are
not numbers). Used to compare the spec wording with the code. -/
def isJsonNumber : JValue → Bool
  | .jnum _ => true
  | _ => false

/-- Membership of a category value in the closed vocabulary the spec
names (Food / Transport / Shopping / Other). Spec-side notion, used to
compare the spec wording with the code. -/
def inCategoryVocab : JValue → Bool
  | .jstr s => decide (s = pystr "Food" ∨ s = pystr "Transport" ∨
      s = pystr "Shopping" ∨ s = pystr "Other")
  | _ => false

/-! ## Expense Structurer (parse_expense_with_ai, app.py lines 40-98,
app_imap.py lines 42-99; the two copies are textually identical) -/

/-- The validation of the model's decoded JSON object, app.py lines
89-95: `result_dict.get("amount") is not None and
isinstance(result_dict.get("amount"), (int, float)) and
result_dict.get("vendor") and result_dict.get("category")`.
On success the function returns result_dict itself. -/
def validateExpense (result_dict : List (PyStr × JValue)) :
    Option (List (PyStr × JValue)) :=
  if isNotNone (objGet result_dict (pystr "amount"))
      && isNumericPy (objGet result_dict (pystr "amount"))
      && pyTruthy (objGet result_dict (pystr "vendor"))
      && pyTruthy (objGet result_dict (pystr "category"))
  then some result_dict
  else none

/-- Outcome of the chat-completion call plus json.loads on its content:
the call may raise (network or API error), the content may fail to
parse (json.loads raises JSONDecodeError), or it parses to a JSON
value. -/
inductive ModelResp where
  | raises
  | content (parsed : Option JValue)

/-- parse_expense_with_ai. First component: the returned record (None
models the Python None, the "not an expense" outcome). Second
component: whether the language-model request was issued. The guard is
line 42: `if not text_to_parse or len(text_to_parse.strip()) < 5`.
A non-dict parsed value makes result_dict.get raise AttributeError,
caught by the except at line 96 and normalized to None. -/
def parse_expense_with_ai (text_to_parse : PyStr) (resp : ModelResp) :
    Option (List (PyStr × JValue)) × Bool :=
  if text_to_parse = [] ∨ (pyStrip text_to_parse).length < 5 then
    (none, false)
  else
    match resp with
    | .raises => (none, true)
    | .content none => (none, true)
    | .content (some (.jobj fields)) => (validateExpense fields, true)
    | .content (some _) => (none, true)

/-! ## Ledger Writer (log_to_google_sheet, app.py lines 100-136,
app_imap.py lines 102-129; the two copies are textually identical) -/

/-- Python float() applied to a validated amount: JSON numbers keep
their value, booleans coerce to 1 or 0 (bool is an int subclass).
Validated amounts are always numbers or booleans; on any other value
reaching float() the call raises, modelled as none. (float() on a
numeric string would parse it, but validation rejects strings, so no
string ever reaches this call.) -/
def pyFloat : JValue → Option ℚ
  | .jnum q => some q
  | .jbool b => some (if b then 1 else 0)
  | _ => none

/-- External calls the Ledger Writer can issue, in order: credential
loading plus gspread.authorize, gc.open(sheet_name).sheet1, and
worksheet.append_row. -/
inductive SheetEffect where
  | authCall
  | openCall
  | appendCall
deriving DecidableEq

/-- Outcomes of the spreadsheet collaborators: whether the credential
file loads and authorizes, whether the spreadsheet is found and shared,
and whether the append succeeds. -/
structure SheetWorld where
  credsValid : Bool
  sheetFound : Bool
  appendOk : Bool

/-- The appended LedgerRow: [str(date.today()), amount, vendor,
category] (app.py lines 121-126). -/
structure LedgerRow where
  date : PyStr
  amount : ℚ
  vendor : JValue
  category : JValue

/-- Exceptions the try-block of log_to_google_sheet can raise. -/
inductive SheetExn where
  | credsError
  | spreadsheetNotFound
  | keyError
  | typeError
  | apiError

/-- Python truthiness of os.getenv output (None when unset, else the
string; the empty string is also falsy). -/
def pyTruthyEnv : Option PyStr → Bool
  | none => false
  | some s => !s.isEmpty

/-- The try-block of log_to_google_sheet, app.py lines 102-130:
effects issued so far, and either a normal return (the early
`return False` for a missing credential path, or the final
`return True` with the appended row) or a raised exception, which the
except clauses at lines 131-136 turn into False. -/
def sheetBody (creds_path : Option PyStr) (w : SheetWorld) (today : PyStr)
    (expense_data : List (PyStr × JValue)) :
    List SheetEffect × Except SheetExn (Bool × Option LedgerRow) :=
  if pyTruthyEnv creds_path = false then
    ([], .ok (false, none))
  else if w.credsValid = false then
    ([.authCall], .error .credsError)
  else if w.sheetFound = false then
    ([.authCall, .openCall], .error .spreadsheetNotFound)
  else
    match expense_data.lookup (pystr "amount") with
    | none => ([.authCall, .openCall], .error .keyError)
    | some v =>
      match pyFloat v with
      | none => ([.authCall, .openCall], .error .typeError)
      | some amount =>
        let new_row : LedgerRow :=
          ⟨today, amount,
            objGetD expense_data (pystr "vendor") (.jstr (pystr "Unknown")),
            objGetD expense_data (pystr "category") (.jstr (pystr "Other"))⟩
        if w.appendOk then
          ([.authCall, .openCall, .appendCall], .ok (true, some new_row))
        else
          ([.authCall, .openCall, .appendCall], .error .apiError)

/-- log_to_google_sheet: the boolean the caller sees, the external
calls issued, and the row appended (if any). Every exception raised in
the body is caught (SpreadsheetNotFound at line 131, everything else at
line 134) and converted to False; nothing propagates to the caller. -/
def log_to_google_sheet (creds_path : Option PyStr) (w : SheetWorld)
    (today : PyStr) (expense_data : List (PyStr × JValue)) :
    Bool × List SheetEffect × Option LedgerRow :=
  match sheetBody creds_path w today expense_data with
  | (effs, .ok (b, row)) => (b, effs, row)
  | (effs, .error _) => (false, effs, none)

/-! ## Content Selector (app.py lines 179-181, app_imap.py lines
250-251; the same statement in both ingresses) -/

/-- The body fallback `if not input_text: input_text = body_plain if
body_plain else body_html`. -/
def selectInputText (input_text body_plain body_html : PyStr) : PyStr :=
  if input_text.isEmpty then
    (if !body_plain.isEmpty then body_plain else body_html)
  else input_text

/-! ## Webhook ingress attachment loop (sendgrid_webhook, app.py lines
154-176) -/

/-- A file part request.files.get("attachment" + i) may return: the
FileStorage's filename and mimetype (empty models falsy), plus the text
extract_text_from_image would return for the saved file
(extract_text_from_image never raises: it catches every exception and
returns the empty string, app.py lines 29-38). -/
structure Attachment where
  filename : PyStr
  mimetype : PyStr
  ocrText : PyStr

/-- The condition of app.py line 160: `attachment and
attachment.filename and attachment.mimetype and
attachment.mimetype.startswith("image/")` (a FileStorage is truthy
exactly when its filename is). -/
def webhookIsImage (a : Attachment) : Bool :=
  !a.filename.isEmpty && !a.mimetype.isEmpty
    && (pystr "image/").isPrefixOf a.mimetype

/-- The loop state after the attachment scan: input_text, the saved
image path, and cleanup_path (the path the finally-block will remove).
-/
structure WebhookScan where
  input_text : PyStr
  image_path : Option PyStr
  cleanup_path : Option PyStr
deriving DecidableEq

/-- The attachment loop, app.py lines 157-175: attachments in index
order (none models request.files.get returning None); the first part
passing the image check is saved to /tmp, marked for cleanup and OCRed,
and the loop breaks; every other part is skipped. -/
def webhookAttachmentLoop : List (Option Attachment) → WebhookScan
  | [] => ⟨[], none, none⟩
  | oa :: rest =>
    match oa with
    | some attachment =>
      if webhookIsImage attachment then
        ⟨attachment.ocrText,
          some (pystr "/tmp/" ++ attachment.filename),
          some (pystr "/tmp/" ++ attachment.filename)⟩
      else webhookAttachmentLoop rest
    | none => webhookAttachmentLoop rest

/-- Spec-side description of the processed attachment: the first
attachment in index order that passes the image check. -/
def firstImageAttachment (atts : List (Option Attachment)) :
    Option Attachment :=
  atts.findSome? fun oa =>
    match oa with
    | some a => if webhookIsImage a then some a else none
    | none => none

/-- The temp files still on disk when the webhook handler returns: the
saved file (if any), minus the finally-block's removal of cleanup_path
(app.py lines 205-212). The downstream parameter records whether the
rest of the try-block (AI call, sheet write) raised; the except at line
199 catches it and the finally runs in both cases. -/
def webhookPersistingFiles (atts : List (Option Attachment))
    (downstream : Except Unit Unit) : List PyStr :=
  let scan := webhookAttachmentLoop atts
  let savedFiles : List PyStr :=
    match scan.image_path with
    | some p => [p]
    | none => []
  let afterBody := match downstream with
    | .ok _ => scan
    | .error _ => scan
  match afterBody.cleanup_path with
  | some cp => savedFiles.filter fun q => decide (q ≠ cp)
  | none => savedFiles

/-! ## IMAP ingress MIME walk (process_emails, app_imap.py lines
193-251) -/

/-- Outcome of the save-and-OCR block for one image attachment,
app_imap.py lines 227-235: either the file was written and OCR ran
(ocrText possibly empty), or open/write raised (the file may or may not
have been created), in which case input_text is reset to empty. -/
inductive SaveResult where
  | saved (ocrText : PyStr)
  | failed (fileCreated : Bool)

/-- One part of the MIME walk: its content type, whether "attachment"
occurs in its content disposition, its (decoded) filename (empty models
a falsy get_filename result), the decoded text payload for body parts
(none models a decode that raises, leaving the body variable
unchanged), and the save outcome were it an image attachment. -/
structure MimePart where
  content_type : PyStr
  is_attachment : Bool
  filename : PyStr
  payload : Option PyStr
  save : SaveResult

/-- Condition of app_imap.py line 199. -/
def partIsPlainBody (p : MimePart) : Bool :=
  decide (p.content_type = pystr "text/plain") && !p.is_attachment

/-- Condition of app_imap.py line 204. -/
def partIsHtmlBody (p : MimePart) : Bool :=
  decide (p.content_type = pystr "text/html") && !p.is_attachment

/-- Condition of app_imap.py line 211: `"attachment" in
content_disposition and part.get_content_maintype() == "image"` (the
maintype is "image" exactly when the content type starts with
"image/"). -/
def partIsImageAtt (p : MimePart) : Bool :=
  p.is_attachment && (pystr "image/").isPrefixOf p.content_type

/-- The mutable state of the MIME walk: the two body variables,
input_text, cleanup_path, and the temp files created on disk. -/
structure ImapState where
  body_plain : PyStr
  body_html : PyStr
  input_text : PyStr
  cleanup_path : Option PyStr
  saved_files : List PyStr

/-- State at the top of each email, app_imap.py lines 164-166 and
188-190. -/
def imapInit : ImapState := ⟨[], [], [], none, []⟩

/-- One iteration of `for part in msg.walk()`, app_imap.py lines
194-235. A decoding body part overwrites body_plain or body_html (or
leaves it unchanged if decoding raises); an image attachment with a
truthy filename sets image_path and cleanup_path, is written to /tmp
and OCRed into input_text (reset to empty if saving raises); there is
no break, so a later image attachment overwrites input_text and
cleanup_path again. -/
def processPart (st : ImapState) (p : MimePart) : ImapState :=
  if partIsPlainBody p then
    match p.payload with
    | some t => { st with body_plain := t }
    | none => st
  else if partIsHtmlBody p then
    match p.payload with
    | some t => { st with body_html := t }
    | none => st
  else if partIsImageAtt p then
    if p.filename.isEmpty then st
    else
      let image_path := pystr "/tmp/" ++ p.filename
      match p.save with
      | .saved t =>
        { st with input_text := t, cleanup_path := some image_path,
                  saved_files := st.saved_files ++ [image_path] }
      | .failed created =>
        { st with input_text := [], cleanup_path := some image_path,
                  saved_files :=
                    if created then st.saved_files ++ [image_path]
                    else st.saved_files }
  else st

/-- The whole MIME walk of one email. -/
def imapScanParts (parts : List MimePart) : ImapState :=
  parts.foldl processPart imapInit

/-- The temp file this part leaves on disk, if any. -/
def imapSavesPart (p : MimePart) : Option PyStr :=
  if partIsImageAtt p && !p.filename.isEmpty then
    match p.save with
    | .saved _ => some (pystr "/tmp/" ++ p.filename)
    | .failed created =>
      if created then some (pystr "/tmp/" ++ p.filename) else none
  else none

/-- The path this part assigns to cleanup_path, if any. -/
def imapTouchesPart (p : MimePart) : Option PyStr :=
  if partIsImageAtt p && !p.filename.isEmpty then
    some (pystr "/tmp/" ++ p.filename)
  else none

/-- The OCR text this part assigns to input_text, if any (empty when
saving raised). -/
def imapOcrPart (p : MimePart) : Option PyStr :=
  if partIsImageAtt p && !p.filename.isEmpty then
    some (match p.save with
          | .saved t => t
          | .failed _ => [])
  else none

/-- The temp files still on disk after one email's processing: the
files the walk created, minus the finally-block's removal of
cleanup_path (app_imap.py lines 267-274). The downstream parameter
records whether the rest of the body (AI call, sheet write, store)
raised; the finally runs in both cases. -/
def imapPersistingFiles (parts : List MimePart)
    (downstream : Except Unit Unit) : List PyStr :=
  let st := imapScanParts parts
  let afterBody := match downstream with
    | .ok _ => st
    | .error _ => st
  match afterBody.cleanup_path with
  | some cp => afterBody.saved_files.filter fun q => decide (q ≠ cp)
  | none => afterBody.saved_files

/-! ## IMAP batch loop (process_emails, app_imap.py lines 162-279) -/

/-- One unseen email as the batch loop sees it: whether
mail.fetch returned an OK status (line 171: a non-OK status hits
`continue`), and whether its per-message processing raises an
exception. -/
structure EmailMsg where
  fetch_ok : Bool
  raises : Bool
deriving DecidableEq

/-- The `for email_id in email_ids` loop. Each email's unit is a
try/finally with no except clause (lines 168 and 267), so an exception
raised while processing one email runs that email's cleanup and then
propagates out of the for loop. First component: the emails processed
to completion; second: whether an exception escaped the loop. -/
def processEmailsLoop : List EmailMsg → List EmailMsg × Bool
  | [] => ([], false)
  | e :: rest =>
    if e.fetch_ok = false then processEmailsLoop rest
    else if e.raises then ([], true)
    else
      let r := processEmailsLoop rest
      (e :: r.1, r.2)

/-- process_emails on one batch: an exception escaping the for loop is
caught by the function-level handlers at lines 276-279 (so the process
survives), but the emails after the failing one were never processed.
The result is the list of emails processed to completion. -/
def process_emails (emails : List EmailMsg) : List EmailMsg :=
  (processEmailsLoop emails).1

/-! ## Claim theorems -/

/-- Claim C2: for every input text whose trimmed length is fewer than
5 characters (including empty input), parse_expense_with_ai returns
None ("not an expense") immediately without issuing any language-model
call, whatever the model would have answered. -/
theorem c2_short_input_skips_ai (text : PyStr) (resp : ModelResp)
    (h : (pyStrip text).length < 5) :
    parse_expense_with_ai text resp = (none, false) := by
  rw [parse_expense_with_ai.eq_def, if_pos (Or.inr h)]

/-- Witness for c2_short_input_skips_ai at the concrete two-character
input and a raising model. -/
theorem c2_short_input_skips_ai_witness :
    (pyStrip (pystr "hi")).length < 5 ∧
      parse_expense_with_ai (pystr "hi") ModelResp.raises = (none, false) :=
  ⟨by decide, c2_short_input_skips_ai (pystr "hi") ModelResp.raises (by decide)⟩

/-- Claim C1, counterexample: the claimed equivalence "a record is
returned iff the amount field is present, non-null and of numeric
type, and vendor and category are truthy" fails as stated. On the
model response with amount equal to the JSON boolean true the code
returns a validated record, although that amount is not of JSON
numeric type: isinstance(x, (int, float)) also accepts booleans,
because Python bool is a subclass of int. -/
theorem c1_numeric_type_counterexample :
    (parse_expense_with_ai (pystr "team lunch receipt")
        (ModelResp.content (some (JValue.jobj
          [(pystr "amount", JValue.jbool true),
           (pystr "vendor", JValue.jstr (pystr "Cafe")),
           (pystr "category", JValue.jstr (pystr "Food"))])))).1.isSome = true
    ∧ isJsonNumber (objGet
        [(pystr "amount", JValue.jbool true),
         (pystr "vendor", JValue.jstr (pystr "Cafe")),
         (pystr "category", JValue.jstr (pystr "Food"))]
        (pystr "amount")) = false := by
  constructor <;> rfl

/-- Claim C1 as amended: for every model-response JSON object (and any
input long enough to reach the model call), parse_expense_with_ai
returns a validated record iff the amount field is present, non-null
and passes isinstance(x, (int, float)) — which admits JSON numbers and
JSON booleans — and the vendor and category fields are truthy. A
string amount such as "15" is still rejected (see the witness). -/
theorem c1_validation_amended (text : PyStr)
    (fields : List (PyStr × JValue)) (h : 5 ≤ (pyStrip text).length) :
    (parse_expense_with_ai text
        (ModelResp.content (some (JValue.jobj fields)))).1.isSome
      = (isNotNone (objGet fields (pystr "amount"))
         && isNumericPy (objGet fields (pystr "amount"))
         && pyTruthy (objGet fields (pystr "vendor"))
         && pyTruthy (objGet fields (pystr "category"))) := by
  have hguard : ¬(text = [] ∨ (pyStrip text).length < 5) := by
    rintro (rfl | h2)
    · simp [pyStrip] at h
    · omega
  rw [parse_expense_with_ai, if_neg hguard]
  show (validateExpense fields).isSome = _
  rw [validateExpense]
  cases hb : (isNotNone (objGet fields (pystr "amount"))
      && isNumericPy (objGet fields (pystr "amount"))
      && pyTruthy (objGet fields (pystr "vendor"))
      && pyTruthy (objGet fields (pystr "category"))) <;> simp [hb]

/-- Witness for c1_validation_amended: a string amount "15" evaluates
the right-hand side to false, so the record is rejected. -/
theorem c1_validation_amended_witness :
    5 ≤ (pyStrip (pystr "spent 15 dollars")).length ∧
    (parse_expense_with_ai (pystr "spent 15 dollars")
        (ModelResp.content (some (JValue.jobj
          [(pystr "amount", JValue.jstr (pystr "15")),
           (pystr "vendor", JValue.jstr (pystr "Shop")),
           (pystr "category", JValue.jstr (pystr "Food"))])))).1.isSome
      = (isNotNone (objGet
            [(pystr "amount", JValue.jstr (pystr "15")),
             (pystr "vendor", JValue.jstr (pystr "Shop")),
             (pystr "category", JValue.jstr (pystr "Food"))] (pystr "amount"))
         && isNumericPy (objGet
            [(pystr "amount", JValue.jstr (pystr "15")),
             (pystr "vendor", JValue.jstr (pystr "Shop")),
             (pystr "category", JValue.jstr (pystr "Food"))] (pystr "amount"))
         && pyTruthy (objGet
            [(pystr "amount", JValue.jstr (pystr "15")),
             (pystr "vendor", JValue.jstr (pystr "Shop")),
             (pystr "category", JValue.jstr (pystr "Food"))] (pystr "vendor"))
         && pyTruthy (objGet
            [(pystr "amount", JValue.jstr (pystr "15")),
             (pystr "vendor", JValue.jstr (pystr "Shop")),
             (pystr "category", JValue.jstr (pystr "Food"))] (pystr "category"))) :=
  ⟨by decide, c1_validation_amended (pystr "spent 15 dollars") _ (by decide)⟩

/-- Claim C5, counterexample: validation performs no positivity check,
so a model response with amount 0 — and likewise one with amount -3 —
is accepted as a validated record, contradicting "zero and negative
amounts are rejected". -/
theorem c5_positive_amount_counterexample :
    validateExpense
        [(pystr "amount", JValue.jnum 0),
         (pystr "vendor", JValue.jstr (pystr "Shop")),
         (pystr "category", JValue.jstr (pystr "Food"))]
      = some
        [(pystr "amount", JValue.jnum 0),
         (pystr "vendor", JValue.jstr (pystr "Shop")),
         (pystr "category", JValue.jstr (pystr "Food"))]
    ∧ (validateExpense
        [(pystr "amount", JValue.jnum (-3)),
         (pystr "vendor", JValue.jstr (pystr "Shop")),
         (pystr "category", JValue.jstr (pystr "Food"))]).isSome = true := by
  constructor <;> rfl

/-- Claim C5 as amended: validation requires the amount to be present,
non-null and numeric, but checks nothing about its sign: every
rational amount — zero and negatives included — is accepted whenever
vendor and category are non-empty strings. -/
theorem c5_amount_sign_unchecked (q : ℚ) (a : Char) (v : PyStr)
    (b : Char) (c : PyStr) :
    (validateExpense
        [(pystr "amount", JValue.jnum q),
         (pystr "vendor", JValue.jstr (a :: v)),
         (pystr "category", JValue.jstr (b :: c))]).isSome = true := by
  simp [validateExpense, objGet, pystr, isNotNone, isNumericPy, pyTruthy]

/-- Claim C6, counterexample: validation only checks that the category
field is truthy, so a category outside the closed
Food/Transport/Shopping/Other vocabulary is accepted. -/
theorem c6_category_vocab_counterexample :
    (validateExpense
        [(pystr "amount", JValue.jnum 12),
         (pystr "vendor", JValue.jstr (pystr "Store")),
         (pystr "category", JValue.jstr (pystr "Raincoats"))]).isSome = true
    ∧ inCategoryVocab (objGet
        [(pystr "amount", JValue.jnum 12),
         (pystr "vendor", JValue.jstr (pystr "Store")),
         (pystr "category", JValue.jstr (pystr "Raincoats"))]
        (pystr "category")) = false := by
  constructor <;> rfl

/-- Claim C6 as amended: every validated record has a truthy (for
strings: non-empty) category field; the closed category vocabulary is
only requested in the prompt, not enforced by validation. -/
theorem c6_category_truthy_only (fields r : List (PyStr × JValue))
    (h : validateExpense fields = some r) :
    pyTruthy (objGet r (pystr "category")) = true := by
  rw [validateExpense] at h
  split at h
  case isTrue hcond =>
    cases h
    simp only [Bool.and_eq_true] at hcond
    exact hcond.2
  case isFalse hcond => cases h

/-- Witness for c6_category_truthy_only at a concrete accepted record
(whose category, "Gadgets", is outside the spec vocabulary). -/
theorem c6_category_truthy_only_witness :
    pyTruthy (objGet
        [(pystr "amount", JValue.jnum 7),
         (pystr "vendor", JValue.jstr (pystr "Kiosk")),
         (pystr "category", JValue.jstr (pystr "Gadgets"))]
        (pystr "category")) = true :=
  c6_category_truthy_only
    [(pystr "amount", JValue.jnum 7),
     (pystr "vendor", JValue.jstr (pystr "Kiosk")),
     (pystr "category", JValue.jstr (pystr "Gadgets"))]
    [(pystr "amount", JValue.jnum 7),
     (pystr "vendor", JValue.jstr (pystr "Kiosk")),
     (pystr "category", JValue.jstr (pystr "Gadgets"))]
    rfl

/-- Claim C10: a model response whose amount is the JSON boolean true
(with truthy vendor and category) passes validation — the
isinstance(x, (int, float)) check treats booleans as integers — and
the Ledger Writer then coerces that amount to the float 1.0 in the
appended row. -/
theorem c10_boolean_amount_accepted :
    (parse_expense_with_ai (pystr "conference dinner receipt")
        (ModelResp.content (some (JValue.jobj
          [(pystr "amount", JValue.jbool true),
           (pystr "vendor", JValue.jstr (pystr "Cafe")),
           (pystr "category", JValue.jstr (pystr "Food"))])))).1
      = some
        [(pystr "amount", JValue.jbool true),
         (pystr "vendor", JValue.jstr (pystr "Cafe")),
         (pystr "category", JValue.jstr (pystr "Food"))]
    ∧ log_to_google_sheet (some (pystr "creds.json")) ⟨true, true, true⟩
        (pystr "2026-10-12")
        [(pystr "amount", JValue.jbool true),
         (pystr "vendor", JValue.jstr (pystr "Cafe")),
         (pystr "category", JValue.jstr (pystr "Food"))]
      = (true,
         [SheetEffect.authCall, SheetEffect.openCall, SheetEffect.appendCall],
         some ⟨pystr "2026-10-12", 1,
               JValue.jstr (pystr "Cafe"), JValue.jstr (pystr "Food")⟩) := by
  constructor <;> rfl

/-- Claim C4: when no image-derived text was produced (no attachment,
or OCR returned empty text, so input_text is empty), the selected text
is body_plain when body_plain is non-empty and otherwise body_html
unmodified; in particular with empty body_plain it equals body_html.
This is the shared fallback of app.py lines 179-181 and app_imap.py
lines 250-251. -/
theorem c4_body_fallback (body_plain body_html : PyStr) :
    (selectInputText [] body_plain body_html
        = if body_plain = [] then body_html else body_plain)
    ∧ selectInputText [] [] body_html = body_html := by
  constructor
  · cases body_plain <;> simp [selectInputText]
  · rfl

/-- Claim C3 evidence: the per-email unit of process_emails is a
try/finally with no except clause, so a batch whose first email raises
during processing ends with the exception escaping the for loop (second
conjunct) and the second, perfectly processable email never processed
(first conjunct) — the function-level handler catches the exception, so
the process survives, but the rest of the batch is abandoned. -/
theorem c3_one_bad_email_aborts_batch :
    process_emails [⟨true, true⟩, ⟨true, false⟩] = []
    ∧ (processEmailsLoop [⟨true, true⟩, ⟨true, false⟩]).2 = true := by
  constructor <;> rfl

/-- Claim C9: with the credential path unset, log_to_google_sheet
returns False immediately, issuing no authentication, open or append
call and appending no row; and whenever the body raises any exception,
the caller sees False — no exception ever propagates out. -/
theorem c9_ledger_writer_failure_policy :
    (∀ (w : SheetWorld) (today : PyStr) (e : List (PyStr × JValue)),
        log_to_google_sheet none w today e = (false, [], none))
    ∧ (∀ (creds_path : Option PyStr) (w : SheetWorld) (today : PyStr)
        (e : List (PyStr × JValue)) (exn : SheetExn),
        (sheetBody creds_path w today e).2 = Except.error exn →
        (log_to_google_sheet creds_path w today e).1 = false) := by
  constructor
  · intro w today e; rfl
  · intro creds_path w today e exn h
    unfold log_to_google_sheet
    rcases hsb : sheetBody creds_path w today e with ⟨effs, out⟩
    rw [hsb] at h
    simp only at h
    subst h
    rfl

/-- Witness for c9_ledger_writer_failure_policy at a concrete
environment whose credential file is invalid: the body raises, the
caller sees False. -/
theorem c9_ledger_writer_failure_policy_witness :
    (sheetBody (some (pystr "creds.json")) ⟨false, true, true⟩
        (pystr "2026-10-12") []).2 = Except.error SheetExn.credsError
    ∧ (log_to_google_sheet (some (pystr "creds.json")) ⟨false, true, true⟩
        (pystr "2026-10-12") []).1 = false :=
  ⟨rfl, c9_ledger_writer_failure_policy.2 (some (pystr "creds.json"))
    ⟨false, true, true⟩ (pystr "2026-10-12") [] SheetExn.credsError rfl⟩

/-! ## Helper lemmas for the attachment loops -/

/-- The webhook attachment loop processes exactly the first attachment
passing the image check: its OCR text becomes input_text, its /tmp path
is saved and marked for cleanup, the loop breaks, and with no image
attachment the scan state is untouched. -/
theorem webhookLoop_eq_firstImage (atts : List (Option Attachment)) :
    webhookAttachmentLoop atts
      = match firstImageAttachment atts with
        | some a => ⟨a.ocrText, some (pystr "/tmp/" ++ a.filename),
                     some (pystr "/tmp/" ++ a.filename)⟩
        | none => ⟨[], none, none⟩ := by
  induction atts with
  | nil => rfl
  | cons oa rest ih =>
    cases oa with
    | none => exact ih
    | some a =>
      by_cases h : webhookIsImage a = true
      · simp [webhookAttachmentLoop, firstImageAttachment,
          List.findSome?_cons, h]
      · simp only [webhookAttachmentLoop, firstImageAttachment,
          List.findSome?_cons, h, if_neg]
        simpa [firstImageAttachment] using ih

/-- A body part of type text/plain is not an image attachment. -/
theorem plainBody_not_image (p : MimePart)
    (h : partIsPlainBody p = true) : partIsImageAtt p = false := by
  simp only [partIsPlainBody, Bool.and_eq_true, Bool.not_eq_true'] at h
  simp [partIsImageAtt, h.2]

/-- A body part of type text/html is not an image attachment. -/
theorem htmlBody_not_image (p : MimePart)
    (h : partIsHtmlBody p = true) : partIsImageAtt p = false := by
  simp only [partIsHtmlBody, Bool.and_eq_true, Bool.not_eq_true'] at h
  simp [partIsImageAtt, h.2]

/-- One MIME-walk step: the temp files on disk grow by exactly the
file this part saves (if any). -/
theorem processPart_saved_files (st : ImapState) (p : MimePart) :
    (processPart st p).saved_files
      = st.saved_files ++ (imapSavesPart p).toList := by
  rw [processPart, imapSavesPart]
  by_cases h1 : partIsPlainBody p = true
  · rw [if_pos h1, if_neg (by simp [plainBody_not_image p h1])]
    cases p.payload <;> simp
  · rw [if_neg h1]
    by_cases h2 : partIsHtmlBody p = true
    · rw [if_pos h2, if_neg (by simp [htmlBody_not_image p h2])]
      cases p.payload <;> simp
    · rw [if_neg h2]
      by_cases h3 : partIsImageAtt p = true
      · rw [if_pos h3]
        by_cases h4 : p.filename.isEmpty = true
        · rw [if_pos h4, if_neg (by simp [h4])]
          simp
        · rw [if_neg h4, if_pos (by simp [h3, h4])]
          cases p.save with
          | saved t => simp
          | failed created => cases created <;> simp
      · rw [if_neg h3, if_neg (by simp [h3])]
        simp

/-- One MIME-walk step: cleanup_path is overwritten by the path this
part touches, if any, else unchanged. -/
theorem processPart_cleanup_path (st : ImapState) (p : MimePart) :
    (processPart st p).cleanup_path
      = match imapTouchesPart p with
        | some q => some q
        | none => st.cleanup_path := by
  rw [processPart, imapTouchesPart]
  by_cases h1 : partIsPlainBody p = true
  · rw [if_pos h1, if_neg (by simp [plainBody_not_image p h1])]
    cases p.payload <;> simp
  · rw [if_neg h1]
    by_cases h2 : partIsHtmlBody p = true
    · rw [if_pos h2, if_neg (by simp [htmlBody_not_image p h2])]
      cases p.payload <;> simp
    · rw [if_neg h2]
      by_cases h3 : partIsImageAtt p = true
      · rw [if_pos h3]
        by_cases h4 : p.filename.isEmpty = true
        · rw [if_pos h4, if_neg (by simp [h4])]
        · rw [if_neg h4, if_pos (by simp [h3, h4])]
          cases p.save with
          | saved t => simp
          | failed created => cases created <;> simp
      · rw [if_neg h3, if_neg (by simp [h3])]

/-- One MIME-walk step: input_text is overwritten by the OCR text this
part yields, if any, else unchanged. -/
theorem processPart_input_text (st : ImapState) (p : MimePart) :
    (processPart st p).input_text
      = match imapOcrPart p with
        | some t => t
        | none => st.input_text := by
  rw [processPart, imapOcrPart]
  by_cases h1 : partIsPlainBody p = true
  · rw [if_pos h1, if_neg (by simp [plainBody_not_image p h1])]
    cases p.payload <;> simp
  · rw [if_neg h1]
    by_cases h2 : partIsHtmlBody p = true
    · rw [if_pos h2, if_neg (by simp [htmlBody_not_image p h2])]
      cases p.payload <;> simp
    · rw [if_neg h2]
      by_cases h3 : partIsImageAtt p = true
      · rw [if_pos h3]
        by_cases h4 : p.filename.isEmpty = true
        · rw [if_pos h4, if_neg (by simp [h4])]
        · rw [if_neg h4, if_pos (by simp [h3, h4])]
          cases p.save with
          | saved t => simp
          | failed created => simp
      · rw [if_neg h3, if_neg (by simp [h3])]

/-- The whole MIME walk saves the files of every image-attachment
part, in order. -/
theorem imapScan_saved_files (parts : List MimePart) :
    ∀ st : ImapState, (parts.foldl processPart st).saved_files
      = st.saved_files ++ parts.filterMap imapSavesPart := by
  induction parts with
  | nil => intro st; simp
  | cons p rest ih =>
    intro st
    rw [List.foldl_cons, ih, processPart_saved_files,
      List.filterMap_cons]
    cases h : imapSavesPart p <;> simp [h]

/-- After the whole MIME walk, cleanup_path holds the path of the
last image-attachment part (or the initial value if there is none). -/
theorem imapScan_cleanup_path (parts : List MimePart) :
    ∀ st : ImapState, (parts.foldl processPart st).cleanup_path
      = (parts.filterMap imapTouchesPart).foldl
          (fun _ q => some q) st.cleanup_path := by
  induction parts with
  | nil => intro st; simp
  | cons p rest ih =>
    intro st
    rw [List.foldl_cons, ih, List.filterMap_cons]
    cases h : imapTouchesPart p <;>
      simp [h, processPart_cleanup_path]

/-- After the whole MIME walk, input_text holds the OCR text of the
last image-attachment part (or the initial value if there is none). -/
theorem imapScan_input_text (parts : List MimePart) :
    ∀ st : ImapState, (parts.foldl processPart st).input_text
      = (parts.filterMap imapOcrPart).foldl
          (fun _ t => t) st.input_text := by
  induction parts with
  | nil => intro st; simp
  | cons p rest ih =>
    intro st
    rw [List.foldl_cons, ih, List.filterMap_cons]
    cases h : imapOcrPart p <;>
      simp [h, processPart_input_text]

/-- A part that saves a file also sets cleanup_path to that file. -/
theorem imapSavesPart_touches (p : MimePart) (x : PyStr)
    (h : imapSavesPart p = some x) : imapTouchesPart p = some x := by
  rw [imapSavesPart] at h
  rw [imapTouchesPart]
  by_cases hc : (partIsImageAtt p && !p.filename.isEmpty) = true
  · rw [if_pos hc] at h
    rw [if_pos hc]
    cases hs : p.save with
    | saved t => rw [hs] at h; exact h
    | failed created =>
      rw [hs] at h
      cases created with
      | true => exact h
      | false => exact absurd h (by simp)
  · rw [if_neg hc] at h
    exact absurd h (by simp)

/-- Claim C7, counterexample: in the IMAP ingress an email with two
image attachments has BOTH saved to /tmp (first conjunct) and the text
passed downstream is the OCR text of the SECOND one (second conjunct) —
the walk at app_imap.py lines 194-235 has no break, so subsequent image
attachments are not ignored, contradicting the claim for the IMAP
ingress. -/
theorem c7_imap_counterexample :
    (imapScanParts
        [⟨pystr "image/png", true, pystr "a.png", none,
            SaveResult.saved (pystr "text a")⟩,
         ⟨pystr "image/png", true, pystr "b.png", none,
            SaveResult.saved (pystr "text b")⟩]).saved_files
      = [pystr "/tmp/a.png", pystr "/tmp/b.png"]
    ∧ (imapScanParts
        [⟨pystr "image/png", true, pystr "a.png", none,
            SaveResult.saved (pystr "text a")⟩,
         ⟨pystr "image/png", true, pystr "b.png", none,
            SaveResult.saved (pystr "text b")⟩]).input_text
      = pystr "text b" := by
  constructor <;> rfl

/-- Claim C7 as amended: in the webhook ingress exactly the first
image attachment is saved and OCRed (the loop breaks; later and
non-image attachments are ignored without error), but in the IMAP
ingress every image attachment with a truthy filename is saved and
OCRed in turn, the saved files accumulating and the last OCR text
winning. -/
theorem c7_first_image_amended :
    (∀ atts : List (Option Attachment),
        webhookAttachmentLoop atts
          = match firstImageAttachment atts with
            | some a => ⟨a.ocrText, some (pystr "/tmp/" ++ a.filename),
                         some (pystr "/tmp/" ++ a.filename)⟩
            | none => ⟨[], none, none⟩)
    ∧ (∀ parts : List MimePart,
        (imapScanParts parts).saved_files = parts.filterMap imapSavesPart
        ∧ (imapScanParts parts).input_text
            = (parts.filterMap imapOcrPart).foldl (fun _ t => t) []) :=
  ⟨webhookLoop_eq_firstImage, fun parts =>
    ⟨by simpa using imapScan_saved_files parts imapInit,
     by simpa using imapScan_input_text parts imapInit⟩⟩

/-- Claim C8, counterexample: an IMAP email with two image attachments
of distinct filenames leaves the first temp file on disk after the
email's processing — only cleanup_path, which the second attachment
overwrote, is removed by the finally block. -/
theorem c8_imap_counterexample :
    imapPersistingFiles
        [⟨pystr "image/png", true, pystr "a.png", none,
            SaveResult.saved (pystr "text a")⟩,
         ⟨pystr "image/png", true, pystr "b.png", none,
            SaveResult.saved (pystr "text b")⟩]
        (Except.ok ())
      = [pystr "/tmp/a.png"] := by
  rfl

/-- Claim C8 as amended: the finally blocks remove cleanup_path — the
most recently saved temp file — on every exit path, normal or raising.
In the webhook ingress (at most one file is ever saved) no temp file
persists, ever; in the IMAP ingress the same holds whenever the email
carries at most one image attachment, but earlier files of a
multi-image email persist (see the counterexample). -/
theorem c8_cleanup_amended :
    (∀ (atts : List (Option Attachment)) (downstream : Except Unit Unit),
        webhookPersistingFiles atts downstream = [])
    ∧ (∀ (parts : List MimePart) (downstream : Except Unit Unit),
        (parts.filterMap imapTouchesPart).length ≤ 1 →
        imapPersistingFiles parts downstream = []) := by
  constructor
  · intro atts downstream
    simp only [webhookPersistingFiles, webhookLoop_eq_firstImage]
    cases h : firstImageAttachment atts <;> cases downstream <;> simp
  · intro parts downstream h
    have hsv := imapScan_saved_files parts imapInit
    have hcl := imapScan_cleanup_path parts imapInit
    rw [show imapInit.saved_files = [] from rfl, List.nil_append] at hsv
    rw [show imapInit.cleanup_path = (none : Option PyStr) from rfl] at hcl
    rcases htl : parts.filterMap imapTouchesPart with _ | ⟨q, _ | ⟨q2, rest⟩⟩
    · have hnone : ∀ p ∈ parts, imapTouchesPart p = none :=
        List.filterMap_eq_nil_iff.mp htl
      have hsnone : parts.filterMap imapSavesPart = [] := by
        refine List.filterMap_eq_nil_iff.mpr fun p hp => ?_
        cases hx : imapSavesPart p with
        | none => rfl
        | some x =>
          exact absurd (hnone p hp)
            (by simp [imapSavesPart_touches p x hx])
      rw [htl, List.foldl_nil] at hcl
      cases downstream <;>
        simp [imapPersistingFiles, imapScanParts, hcl, hsv, hsnone]
    · have hq : ∀ x ∈ parts.filterMap imapSavesPart, x = q := by
        intro x hx
        rcases List.mem_filterMap.mp hx with ⟨p, hp, hpx⟩
        have hmem : x ∈ parts.filterMap imapTouchesPart :=
          List.mem_filterMap.mpr ⟨p, hp, imapSavesPart_touches p x hpx⟩
        rw [htl] at hmem
        simpa using hmem
      rw [htl] at hcl
      have hfe : (parts.filterMap imapSavesPart).filter
          (fun x => !decide (x = q)) = [] := by
        refine List.filter_eq_nil_iff.mpr fun x hx => ?_
        simp [hq x hx]
      cases downstream <;>
        simp [imapPersistingFiles, imapScanParts, hcl, hsv, hfe]
    · rw [htl] at h
      simp at h


/-- Witness for the IMAP half of c8_cleanup_amended at a concrete
one-image email whose save step raised midway (the file was created
but OCR never ran) and whose downstream processing also raised: the
temp file is still removed. -/
theorem c8_cleanup_amended_witness :
    (List.filterMap imapTouchesPart
        [⟨pystr "image/jpeg", true, pystr "r.jpg", none,
            SaveResult.failed true⟩]).length ≤ 1
    ∧ imapPersistingFiles
        [⟨pystr "image/jpeg", true, pystr "r.jpg", none,
            SaveResult.failed true⟩]
        (Except.error ())
      = [] :=
  ⟨by decide,
   c8_cleanup_amended.2
     [⟨pystr "image/jpeg", true, pystr "r.jpg", none,
         SaveResult.failed true⟩]
     (Except.error ()) (by decide)⟩

end ExpenseTrackerBot
